import Mathlib

/-!
Shallow embedding of the Finix authentication-session core:
the `FiMcpService` class of `src/backend/src/services/fiMcpService.js`
(session store, auth flow, data-fetch gating, sweep) and the function-call
dispatcher `executeFunctionCall` of the Gemini service module in the same
source file. Times are milliseconds since epoch, modelled as `Nat`; the
JavaScript `Map` backing `this.userSessions` is modelled as an association
list keyed by `userId`; the remote MCP transport is an explicit oracle
argument, and every operation that can issue a transport request returns
the number of requests it issued, so that "the transport is never invoked"
is a provable statement.
-/

namespace Finix

/-- Session status. In the current service, `sessionData.status` is only
ever assigned the strings `pending` (in `initiateAuthentication`) and
`authenticated` (in `completeAuthentication`). -/
inductive SessionStatus where
  | pending
  | authenticated
deriving DecidableEq, Repr

/-- One entry of `this.userSessions`. `initiateAuthentication` stores
`{sessionId, phoneNumber, timestamp, status}`; `completeAuthentication`
later adds `authenticatedAt`, hence that field is optional. -/
structure SessionData where
  sessionId : String
  phoneNumber : String
  timestamp : Nat
  status : SessionStatus
  authenticatedAt : Option Nat
deriving DecidableEq, Repr

/-- The `this.userSessions` JavaScript `Map`, keyed by `userId`. -/
abbrev Store := List (String × SessionData)

/-- `this.sessionExpiry = 30 * 60 * 1000` (30 minutes, milliseconds). -/
def sessionExpiry : Nat := 30 * 60 * 1000

/-- `this.userSessions.get(userId)`: first entry with the given key. -/
def mapGet : Store → String → Option SessionData
  | [], _ => none
  | p :: tl, k => if p.1 = k then some p.2 else mapGet tl k

/-- `this.userSessions.set(userId, v)`: JavaScript `Map.set` updates the
existing entry in place when the key is present, else appends. -/
def mapSet (s : Store) (k : String) (v : SessionData) : Store :=
  if (mapGet s k).isSome then
    s.map (fun p => if p.1 = k then (k, v) else p)
  else
    s ++ [(k, v)]

/-- `this.userSessions.delete(userId)`. -/
def mapDelete (s : Store) (k : String) : Store :=
  s.filter (fun p => p.1 ≠ k)

/-- The JSON-RPC reply body (`response.data`): it may carry an `error`
object (modelled by its message) and otherwise a `result` payload
(kept opaque as a string). -/
structure McpReply where
  error : Option String
  result : String
deriving DecidableEq, Repr

/-- Outcome of one HTTP POST to the MCP endpoint, as seen by `axios`:
either the request throws (timeout / connection failure / non-2xx HTTP
status, the status being available on `error.response`), or it resolves
with a reply body. -/
inductive McpOutcome where
  | httpFailure (status : Option Nat) (msg : String)
  | response (reply : McpReply)
deriving DecidableEq, Repr

/-- `makeMcpCall`: on an axios rejection it rethrows
`` `MCP call failed: ${...message}` `` — note it never inspects
`error.response.status`, so an HTTP 401/403 is indistinguishable from any
other transport failure; on success it returns `response.data` unchanged
(even when the body carries an `error` field). -/
def makeMcpCall (t : McpOutcome) : Except String McpReply :=
  match t with
  | .httpFailure _ msg => .error ("MCP call failed: " ++ msg)
  | .response reply => .ok reply

/-- The distinct throw sites of the service and dispatcher, one
constructor per site (the JavaScript code distinguishes errors only by
message; re-throws that merely prefix the message keep the constructor):
* `authRequired` — `User not authenticated with Fi MCP`;
* `invalidPhone` — `Invalid phone number format. ...`;
* `noPendingSession` — `No pending authentication session found. ...`;
* `sessionExpired` — `Authentication session expired. ...`;
* `sessionNotAuthenticated` — `Session not authenticated. ...`;
* `mcpCallFailed` — `` `MCP call failed: ...` `` from `makeMcpCall`;
* `fetchFailed` — the `result.error` branch of a data fetch;
* `missingArgument` — dispatcher guard (`Phone number is required ...`,
  `Passcode is required ...`);
* `unknownFunction` — dispatcher `default:` branch;
* `methodMissing` — the `TypeError` raised when the dispatcher invokes a
  method the exported service object does not define. -/
inductive FiError where
  | authRequired
  | invalidPhone
  | noPendingSession
  | sessionExpired
  | sessionNotAuthenticated
  | mcpCallFailed (msg : String)
  | fetchFailed (msg : String)
  | missingArgument (arg : String)
  | unknownFunction (name : String)
  | methodMissing (name : String)
deriving DecidableEq, Repr

/-- `phoneNumber.replace(/\s+/g, empty)`: remove every whitespace character. -/
def stripWs (p : String) : String :=
  ⟨p.data.filter (fun c => !c.isWhitespace)⟩

/-- The test `/^\+?[1-9]\d{1,14}$/.test(p)`: optional leading `+`, then a
digit `1`–`9`, then 1 to 14 further digits. -/
def validPhone (p : String) : Bool :=
  let core := match p.data with
    | '+' :: cs => cs
    | l => l
  match core with
  | [] => false
  | c :: rest =>
      ('1' ≤ c && c ≤ '9') && rest.all (fun d => d.isDigit)
        && decide (1 ≤ rest.length) && decide (rest.length ≤ 14)

/-- The success payload of `initiateAuthentication` (fields relevant to
the seed claims; `loginUrl` and `instructions` are derived strings). -/
structure InitResult where
  sessionId : String
  phoneNumber : String
deriving DecidableEq, Repr

/-- `initiateAuthentication(userId, phoneNumber)`: rejects when
`!phoneNumber` or the whitespace-stripped number fails `validPhone`
(re-thrown as `` `Authentication initiation failed: ...` ``); otherwise
stores `{sessionId, phoneNumber: stripped, timestamp: now,
status: pending}` under `userId`, overwriting any prior record. The
freshly generated `generateSessionId()` value is passed in as `sid`.
No transport request is made on any path. -/
def initiateAuthentication (s : Store) (now : Nat) (userId phone sid : String) :
    Except FiError InitResult × Store :=
  if phone.isEmpty || !validPhone (stripWs phone) then
    (.error .invalidPhone, s)
  else
    (.ok ⟨sid, stripWs phone⟩,
     mapSet s userId ⟨sid, stripWs phone, now, .pending, none⟩)

/-- The success payload of `completeAuthentication`. -/
structure CompleteResult where
  sessionId : String
  phoneNumber : String
deriving DecidableEq, Repr

/-- `completeAuthentication(userId, passcode)`: requires a `pending`
record (else `noPendingSession`); deletes the record and fails
`sessionExpired` when `now - timestamp > sessionExpiry`; otherwise makes
one test transport call (`tools/list`), failing on a transport error or
on a reply carrying an `error` field (record untouched), and on a clean
reply mutates the record in place to `status: authenticated`,
`authenticatedAt: now`. The `passcode` argument is never read. -/
def completeAuthentication (s : Store) (now : Nat) (userId passcode : String)
    (t : McpOutcome) : Except FiError CompleteResult × Store × Nat :=
  match mapGet s userId with
  | none => (.error .noPendingSession, s, 0)
  | some sd =>
    if sd.status ≠ SessionStatus.pending then
      (.error .noPendingSession, s, 0)
    else if now - sd.timestamp > sessionExpiry then
      (.error .sessionExpired, mapDelete s userId, 0)
    else
      match makeMcpCall t with
      | .error m => (.error (.mcpCallFailed m), s, 1)
      | .ok reply =>
        if reply.error.isSome then
          (.error .sessionNotAuthenticated, s, 1)
        else
          (.ok ⟨sd.sessionId, sd.phoneNumber⟩,
           mapSet s userId { sd with status := .authenticated,
                                     authenticatedAt := some now }, 1)

/-- `isAuthenticated(userId)`: false when there is no record or the status
is not `authenticated` (no side effect); when authenticated and
`now - authenticatedAt > sessionExpiry`, deletes the record and returns
false; otherwise true. An `authenticated` record lacking
`authenticatedAt` cannot be produced by the code, but the JavaScript
comparison `now - undefined > expiry` is `NaN > expiry = false`, so such
a record would pass the check; the model mirrors that. -/
def isAuthenticated (s : Store) (now : Nat) (userId : String) : Bool × Store :=
  match mapGet s userId with
  | none => (false, s)
  | some sd =>
    if sd.status ≠ SessionStatus.authenticated then
      (false, s)
    else
      match sd.authenticatedAt with
      | none => (true, s)
      | some a =>
        if now - a > sessionExpiry then (false, mapDelete s userId)
        else (true, s)

/-- Common body of the five data getters (`getNetWorth`, `getMutualFunds`,
`getBankTransactions`, `getEpfDetails`, `getCreditReport`), which differ
only in the tool name sent in the `tools/call` params and in message
strings: check `isAuthenticated` (throwing
`User not authenticated with Fi MCP` when false, before any transport
request); then one transport call; a transport error or a reply `error`
field is re-thrown (`` `Failed to get ...: ...` ``), else `result.result`
is returned. The returned `Nat` counts transport requests issued. -/
def fetchViaMcp (toolName : String) (s : Store) (now : Nat) (userId : String)
    (t : McpOutcome) : Except FiError McpReply × Store × Nat :=
  let auth := isAuthenticated s now userId
  if !auth.1 then
    (.error .authRequired, auth.2, 0)
  else
    match makeMcpCall t with
    | .error m => (.error (.mcpCallFailed m), auth.2, 1)
    | .ok reply =>
      match reply.error with
      | some m => (.error (.fetchFailed m), auth.2, 1)
      | none => (.ok reply, auth.2, 1)

/-- `getNetWorth(userId)` — MCP tool `fetch_net_worth`. -/
def getNetWorth : Store → Nat → String → McpOutcome →
    Except FiError McpReply × Store × Nat :=
  fetchViaMcp "fetch_net_worth"

/-- `getMutualFunds(userId)` — MCP tool `fetch_mutual_fund_transactions`. -/
def getMutualFunds : Store → Nat → String → McpOutcome →
    Except FiError McpReply × Store × Nat :=
  fetchViaMcp "fetch_mutual_fund_transactions"

/-- `getBankTransactions(userId)` — MCP tool `fetch_bank_transactions`. -/
def getBankTransactions : Store → Nat → String → McpOutcome →
    Except FiError McpReply × Store × Nat :=
  fetchViaMcp "fetch_bank_transactions"

/-- `getEpfDetails(userId)` — MCP tool `fetch_epf_details`. -/
def getEpfDetails : Store → Nat → String → McpOutcome →
    Except FiError McpReply × Store × Nat :=
  fetchViaMcp "fetch_epf_details"

/-- `getCreditReport(userId)` — MCP tool `fetch_credit_report`. -/
def getCreditReport : Store → Nat → String → McpOutcome →
    Except FiError McpReply × Store × Nat :=
  fetchViaMcp "fetch_credit_report"

/-- The `summary` object of `getPortfolioAnalysis`: per sub-call, the
fulfilled value or `null`. -/
structure PortfolioSummary where
  netWorth : Option McpReply
  mutualFunds : Option McpReply
  bankTransactions : Option McpReply
  epfDetails : Option McpReply
deriving DecidableEq, Repr

/-- The `availableData` object of `getPortfolioAnalysis`: per sub-call,
whether its promise was fulfilled. -/
structure AvailableData where
  netWorth : Bool
  mutualFunds : Bool
  bankTransactions : Bool
  epfDetails : Bool
deriving DecidableEq, Repr

/-- The `analysis` result object of `getPortfolioAnalysis`
(`lastUpdated` omitted: a wall-clock string). -/
structure PortfolioAnalysis where
  summary : PortfolioSummary
  availableData : AvailableData
deriving DecidableEq, Repr

/-- `settled.status === fulfilled ? settled.value : null`. -/
def fulfilledValue : Except FiError McpReply → Option McpReply
  | .ok reply => some reply
  | .error _ => none

/-- `settled.status === fulfilled`. -/
def isFulfilled : Except FiError McpReply → Bool
  | .ok _ => true
  | .error _ => false

/-- `getPortfolioAnalysis(userId)`: after its own `isAuthenticated` gate,
runs the four data sub-calls under `Promise.allSettled` (modelled
sequentially; the oracle `t` supplies the outcome of the i-th transport
request) and assembles `summary` / `availableData` from the settled
results — `allSettled` never rejects, so sub-call failures cannot fail
the whole operation. -/
def getPortfolioAnalysis (s : Store) (now : Nat) (userId : String)
    (t : Nat → McpOutcome) : Except FiError PortfolioAnalysis × Store × Nat :=
  let auth := isAuthenticated s now userId
  if !auth.1 then
    (.error .authRequired, auth.2, 0)
  else
    let r1 := getNetWorth auth.2 now userId (t 0)
    let r2 := getMutualFunds r1.2.1 now userId (t 1)
    let r3 := getBankTransactions r2.2.1 now userId (t 2)
    let r4 := getEpfDetails r3.2.1 now userId (t 3)
    (.ok ⟨⟨fulfilledValue r1.1, fulfilledValue r2.1,
           fulfilledValue r3.1, fulfilledValue r4.1⟩,
          ⟨isFulfilled r1.1, isFulfilled r2.1,
           isFulfilled r3.1, isFulfilled r4.1⟩⟩,
     r4.2.1, r1.2.2 + r2.2.2 + r3.2.2 + r4.2.2)

/-- `disconnect(userId)`: unconditional `this.userSessions.delete`. -/
def disconnect (s : Store) (userId : String) : Store :=
  mapDelete s userId

/-- `cleanupExpiredSessions()` (the 5-minute interval sweep): iterates all
records and deletes each with `now - sessionData.timestamp >
this.sessionExpiry` — a single 30-minute window measured from the
creation `timestamp`, whatever its `status`. -/
def cleanupExpiredSessions (s : Store) (now : Nat) : Store :=
  s.filter (fun p => !(now - p.2.timestamp > sessionExpiry))

/-- The `args` object of a Gemini function call (fields the dispatcher
reads; a JavaScript falsy check treats an absent and an empty string
alike, so `Option String` with `""` covers both shapes). -/
structure FunctionArgs where
  phoneNumber : Option String
  passcode : Option String
deriving DecidableEq, Repr

/-- Result of a dispatched function call. -/
inductive FuncResult where
  | data (reply : McpReply)
  | portfolio (a : PortfolioAnalysis)
  | initiated (r : InitResult)
  | completed (r : CompleteResult)
deriving DecidableEq, Repr

/-- The names in `this.functionDeclarations` of the Gemini service — the
tool schema advertised to the model. -/
def functionDeclarationNames : List String :=
  ["getNetWorth", "getMutualFunds", "getStocks", "getLoansAndCreditCards",
   "getPortfolioAnalysis", "initiateAuthentication", "completeAuthentication"]

/-- `executeFunctionCall(functionCall, userId)`: the `switch` on
`functionCall.name`. `getStocks` and `getLoansAndCreditCards` are routed
to `fiMcpService.getStocks` / `fiMcpService.getLoansAndCreditCards`,
methods the exported service object does not define, so these cases throw
a `TypeError` immediately — before any authentication check and with no
transport request. `getBankTransactions`, `getEpfDetails` and
`getCreditReport` have no `case` and fall to the `default:` branch. The
auth cases guard on falsy `args?.phoneNumber` / `args?.passcode`. -/
def executeFunctionCall (s : Store) (now : Nat) (name : String)
    (args : FunctionArgs) (userId : String) (t : Nat → McpOutcome)
    (sid : String) : Except FiError FuncResult × Store × Nat :=
  if name = "getNetWorth" then
    let r := getNetWorth s now userId (t 0)
    (r.1.map .data, r.2)
  else if name = "getMutualFunds" then
    let r := getMutualFunds s now userId (t 0)
    (r.1.map .data, r.2)
  else if name = "getStocks" then
    (.error (.methodMissing "getStocks"), s, 0)
  else if name = "getLoansAndCreditCards" then
    (.error (.methodMissing "getLoansAndCreditCards"), s, 0)
  else if name = "getPortfolioAnalysis" then
    let r := getPortfolioAnalysis s now userId t
    (r.1.map .portfolio, r.2)
  else if name = "initiateAuthentication" then
    match args.phoneNumber with
    | none => (.error (.missingArgument "phoneNumber"), s, 0)
    | some phone =>
      if phone.isEmpty then (.error (.missingArgument "phoneNumber"), s, 0)
      else
        let r := initiateAuthentication s now userId phone sid
        (r.1.map .initiated, r.2, 0)
  else if name = "completeAuthentication" then
    match args.passcode with
    | none => (.error (.missingArgument "passcode"), s, 0)
    | some pc =>
      if pc.isEmpty then (.error (.missingArgument "passcode"), s, 0)
      else
        let r := completeAuthentication s now userId pc (t 0)
        (r.1.map .completed, r.2)
  else
    (.error (.unknownFunction name), s, 0)

/-! ### Store lemmas -/

/-- Keys of the store, in order. -/
def storeKeys (s : Store) : List String :=
  s.map Prod.fst

/-- The at-most-one-record-per-user invariant of the JavaScript `Map`:
no key occurs twice. -/
def KeysNodup (s : Store) : Prop :=
  (storeKeys s).Nodup

theorem not_mem_storeKeys_of_mapGet_eq_none {s : Store} {k : String}
    (h : mapGet s k = none) : k ∉ storeKeys s := by
  induction s with
  | nil => simp [storeKeys]
  | cons hd tl ih =>
    by_cases hh : hd.1 = k
    · simp [mapGet, hh] at h
    · simp only [mapGet, hh, if_false] at h
      simp only [storeKeys, List.map_cons, List.mem_cons, not_or]
      exact ⟨fun hk => hh hk.symm, ih h⟩

theorem mapGet_eq_none_of_not_mem {s : Store} {k : String}
    (h : k ∉ storeKeys s) : mapGet s k = none := by
  induction s with
  | nil => rfl
  | cons hd tl ih =>
    simp only [storeKeys, List.map_cons, List.mem_cons, not_or] at h
    have hne : ¬ hd.1 = k := fun hk => h.1 hk.symm
    simp only [mapGet]
    rw [if_neg hne]
    exact ih h.2

theorem mapGet_map_update (s : Store) (k : String) (v : SessionData) :
    mapGet (s.map (fun p => if p.1 = k then (k, v) else p)) k =
      if (mapGet s k).isSome then some v else none := by
  induction s with
  | nil => simp [mapGet]
  | cons hd tl ih =>
    by_cases hh : hd.1 = k
    · simp [mapGet, hh]
    · simp [mapGet, hh, ih]

theorem mapGet_append_single (s : Store) (k : String) (v : SessionData)
    (h : mapGet s k = none) :
    mapGet (s ++ [(k, v)]) k = some v := by
  induction s with
  | nil => simp [mapGet]
  | cons hd tl ih =>
    by_cases hh : hd.1 = k
    · simp [mapGet, hh] at h
    · simp only [mapGet, hh, if_false] at h
      simpa only [List.cons_append, mapGet, hh, if_false] using ih h

theorem mapGet_mapSet_self (s : Store) (k : String) (v : SessionData) :
    mapGet (mapSet s k v) k = some v := by
  unfold mapSet
  by_cases h : (mapGet s k).isSome
  · simp [h, mapGet_map_update]
  · simp only [h, if_false]
    exact mapGet_append_single s k v (Option.not_isSome_iff_eq_none.mp h)

theorem storeKeys_filter_sublist (s : Store) (q : String × SessionData → Bool) :
    (storeKeys (s.filter q)).Sublist (storeKeys s) :=
  List.Sublist.map Prod.fst (List.filter_sublist s)

theorem keysNodup_filter {s : Store} (q : String × SessionData → Bool)
    (h : KeysNodup s) : KeysNodup (s.filter q) :=
  List.Nodup.sublist (storeKeys_filter_sublist s q) h

theorem keysNodup_mapDelete {s : Store} (k : String) (h : KeysNodup s) :
    KeysNodup (mapDelete s k) :=
  keysNodup_filter _ h

theorem storeKeys_mapSet_of_isSome {s : Store} {k : String} (v : SessionData)
    (h : (mapGet s k).isSome = true) :
    storeKeys (mapSet s k v) = storeKeys s := by
  unfold mapSet storeKeys
  simp only [h, if_true, List.map_map]
  apply List.map_congr_left
  intro p _
  by_cases hh : p.1 = k <;> simp [hh, Function.comp]

theorem storeKeys_mapSet_of_none {s : Store} {k : String} (v : SessionData)
    (h : mapGet s k = none) :
    storeKeys (mapSet s k v) = storeKeys s ++ [k] := by
  unfold mapSet storeKeys
  simp [h]

theorem keysNodup_mapSet {s : Store} (k : String) (v : SessionData)
    (h : KeysNodup s) : KeysNodup (mapSet s k v) := by
  by_cases hc : (mapGet s k).isSome
  · unfold KeysNodup
    rw [storeKeys_mapSet_of_isSome v hc]
    exact h
  · have hn : mapGet s k = none := Option.not_isSome_iff_eq_none.mp hc
    unfold KeysNodup
    rw [storeKeys_mapSet_of_none v hn, List.nodup_append]
    refine ⟨h, List.nodup_singleton k, ?_⟩
    intro a ha hak
    simp only [List.mem_singleton] at hak
    subst hak
    exact not_mem_storeKeys_of_mapGet_eq_none hn ha

theorem countP_key_le_one {s : Store} (u : String) (h : KeysNodup s) :
    s.countP (fun p => p.1 == u) ≤ 1 := by
  induction s with
  | nil => simp
  | cons hd tl ih =>
    have hk : (hd.1 :: storeKeys tl).Nodup := h
    have hcons := List.nodup_cons.mp hk
    have h2 : KeysNodup tl := hcons.2
    by_cases hh : hd.1 = u
    · have hnot : u ∉ storeKeys tl := hh ▸ hcons.1
      have hzero : tl.countP (fun p => p.1 == u) = 0 := by
        rw [List.countP_eq_zero]
        intro p hp
        simp only [beq_iff_eq]
        intro hpe
        exact hnot (hpe ▸ List.mem_map_of_mem Prod.fst hp)
      simp [List.countP_cons, hh, hzero]
    · simpa [List.countP_cons, hh] using ih h2


/-! ### Operation-level lemmas -/

theorem isAuthenticated_snd_of_true {s : Store} {now : Nat} {u : String}
    (h : (isAuthenticated s now u).1 = true) :
    (isAuthenticated s now u).2 = s := by
  cases hg : mapGet s u with
  | none => simp [isAuthenticated, hg]
  | some sd =>
    by_cases hst : sd.status = SessionStatus.authenticated
    · cases ha : sd.authenticatedAt with
      | none => simp [isAuthenticated, hg, hst, ha]
      | some a =>
        by_cases hexp : now - a > sessionExpiry
        · simp [isAuthenticated, hg, hst, ha, hexp] at h
        · simp [isAuthenticated, hg, hst, ha, hexp]
    · simp [isAuthenticated, hg, hst]

theorem keysNodup_isAuthenticated (s : Store) (now : Nat) (u : String)
    (h : KeysNodup s) : KeysNodup (isAuthenticated s now u).2 := by
  unfold isAuthenticated
  split
  · exact h
  · split
    · exact h
    · split
      · exact h
      · split
        · exact keysNodup_mapDelete _ h
        · exact h

theorem keysNodup_initiateAuthentication (s : Store) (now : Nat)
    (u phone sid : String) (h : KeysNodup s) :
    KeysNodup (initiateAuthentication s now u phone sid).2 := by
  unfold initiateAuthentication
  split
  · exact h
  · exact keysNodup_mapSet _ _ h

theorem keysNodup_completeAuthentication (s : Store) (now : Nat)
    (u pc : String) (t : McpOutcome) (h : KeysNodup s) :
    KeysNodup (completeAuthentication s now u pc t).2.1 := by
  unfold completeAuthentication
  split
  · exact h
  · split
    · exact h
    · split
      · exact keysNodup_mapDelete _ h
      · split
        · exact h
        · split
          · exact h
          · exact keysNodup_mapSet _ _ h

theorem fetchViaMcp_snd (tool : String) (s : Store) (now : Nat) (u : String)
    (t : McpOutcome) :
    (fetchViaMcp tool s now u t).2.1 = (isAuthenticated s now u).2 := by
  simp only [fetchViaMcp]
  split
  · rfl
  · split
    · rfl
    · split <;> rfl

theorem keysNodup_fetchViaMcp (tool : String) (s : Store) (now : Nat)
    (u : String) (t : McpOutcome) (h : KeysNodup s) :
    KeysNodup (fetchViaMcp tool s now u t).2.1 := by
  rw [fetchViaMcp_snd]
  exact keysNodup_isAuthenticated s now u h

theorem keysNodup_getPortfolioAnalysis (s : Store) (now : Nat) (u : String)
    (t : Nat → McpOutcome) (h : KeysNodup s) :
    KeysNodup (getPortfolioAnalysis s now u t).2.1 := by
  simp only [getPortfolioAnalysis, getNetWorth, getMutualFunds,
    getBankTransactions, getEpfDetails]
  split
  · exact keysNodup_isAuthenticated s now u h
  · exact keysNodup_fetchViaMcp _ _ _ _ _ (keysNodup_fetchViaMcp _ _ _ _ _
      (keysNodup_fetchViaMcp _ _ _ _ _ (keysNodup_fetchViaMcp _ _ _ _ _
        (keysNodup_isAuthenticated s now u h))))

theorem keysNodup_disconnect (s : Store) (u : String) (h : KeysNodup s) :
    KeysNodup (disconnect s u) :=
  keysNodup_mapDelete _ h

theorem keysNodup_cleanupExpiredSessions (s : Store) (now : Nat)
    (h : KeysNodup s) : KeysNodup (cleanupExpiredSessions s now) :=
  keysNodup_filter _ h

theorem keysNodup_executeFunctionCall (s : Store) (now : Nat) (name : String)
    (args : FunctionArgs) (u : String) (t : Nat → McpOutcome) (sid : String)
    (h : KeysNodup s) : KeysNodup (executeFunctionCall s now name args u t sid).2.1 := by
  unfold executeFunctionCall
  split
  · exact keysNodup_fetchViaMcp _ _ _ _ _ h
  · split
    · exact keysNodup_fetchViaMcp _ _ _ _ _ h
    · split
      · exact h
      · split
        · exact h
        · split
          · exact keysNodup_getPortfolioAnalysis _ _ _ _ h
          · split
            · split
              · exact h
              · split
                · exact h
                · exact keysNodup_initiateAuthentication _ _ _ _ _ h
            · split
              · split
                · exact h
                · split
                  · exact h
                  · exact keysNodup_completeAuthentication _ _ _ _ _ h
              · exact h

/-! ### Reachable states of the session store -/

/-- One externally triggerable operation of the service, as a transition
on the session store (the result component is discarded; arguments,
current time and transport outcomes are arbitrary). -/
inductive Step : Store → Store → Prop where
  | initiate (s : Store) (now : Nat) (u phone sid : String) :
      Step s (initiateAuthentication s now u phone sid).2
  | complete (s : Store) (now : Nat) (u pc : String) (t : McpOutcome) :
      Step s (completeAuthentication s now u pc t).2.1
  | checkAuth (s : Store) (now : Nat) (u : String) :
      Step s (isAuthenticated s now u).2
  | dataFetch (tool : String) (s : Store) (now : Nat) (u : String) (t : McpOutcome) :
      Step s (fetchViaMcp tool s now u t).2.1
  | portfolio (s : Store) (now : Nat) (u : String) (t : Nat → McpOutcome) :
      Step s (getPortfolioAnalysis s now u t).2.1
  | disconnectUser (s : Store) (u : String) :
      Step s (disconnect s u)
  | sweep (s : Store) (now : Nat) :
      Step s (cleanupExpiredSessions s now)
  | dispatch (s : Store) (now : Nat) (name : String) (args : FunctionArgs)
      (u sid : String) (t : Nat → McpOutcome) :
      Step s (executeFunctionCall s now name args u t sid).2.1

/-- Stores reachable from the empty store (`new Map()`) by any sequence
of service operations. -/
inductive Reachable : Store → Prop where
  | nil : Reachable []
  | step {s s' : Store} : Reachable s → Step s s' → Reachable s'

theorem step_keysNodup {s s' : Store} (h : KeysNodup s) (hs : Step s s') :
    KeysNodup s' := by
  cases hs with
  | initiate s now u phone sid => exact keysNodup_initiateAuthentication s now u phone sid h
  | complete s now u pc t => exact keysNodup_completeAuthentication s now u pc t h
  | checkAuth s now u => exact keysNodup_isAuthenticated s now u h
  | dataFetch tool s now u t => exact keysNodup_fetchViaMcp tool s now u t h
  | portfolio s now u t => exact keysNodup_getPortfolioAnalysis s now u t h
  | disconnectUser s u => exact keysNodup_disconnect s u h
  | sweep s now => exact keysNodup_cleanupExpiredSessions s now h
  | dispatch s now name args u sid t => exact keysNodup_executeFunctionCall s now name args u t sid h

theorem reachable_keysNodup {s : Store} (h : Reachable s) : KeysNodup s := by
  induction h with
  | nil => exact List.nodup_nil
  | step _ hs ih => exact step_keysNodup ih hs


/-! ### Claim theorems -/

/-- C2: in every reachable state of the session store each `userId` has at
most one session record, and a second `initiateAuthentication` for the
same user (with a valid phone number) replaces the existing record: the
post-state holds the fresh pending record for `u` and still at most one
record for `u`. -/
theorem session_store_at_most_one_record (s : Store) (u : String)
    (hs : Reachable s) (now : Nat) (phone sid : String)
    (hv : (phone.isEmpty || !validPhone (stripWs phone)) = false) :
    s.countP (fun p => p.1 == u) ≤ 1 ∧
    mapGet (initiateAuthentication s now u phone sid).2 u =
      some ⟨sid, stripWs phone, now, SessionStatus.pending, none⟩ ∧
    (initiateAuthentication s now u phone sid).2.countP (fun p => p.1 == u) ≤ 1 := by
  have hnd := reachable_keysNodup hs
  refine ⟨countP_key_le_one u hnd, ?_, ?_⟩
  · simp only [initiateAuthentication, hv, Bool.false_eq_true, if_false]
    exact mapGet_mapSet_self s u _
  · exact countP_key_le_one u (keysNodup_initiateAuthentication s now u phone sid hnd)

/-- C2 witness: two consecutive `initiateAuthentication` calls for the
same user leave at most one record for that user. -/
theorem session_store_at_most_one_record_w :
    (initiateAuthentication (initiateAuthentication [] 0 "u1" "+14155550100" "sid1").2
        5 "u1" "+14155550100" "sid2").2.countP (fun p => p.1 == "u1") ≤ 1 := by
  have hreach : Reachable (initiateAuthentication [] 0 "u1" "+14155550100" "sid1").2 :=
    Reachable.step Reachable.nil (Step.initiate [] 0 "u1" "+14155550100" "sid1")
  exact (session_store_at_most_one_record _ "u1" hreach 5 "+14155550100" "sid2"
    (by decide)).2.2

/-- C4: `isAuthenticated(u)` is true iff a record for `u` exists with
status `authenticated` and `now` at most `authenticatedAt +
sessionExpiry`; past that expiry it deletes the record as a side effect
and returns false; it returns false with no store change when there is no
record or the record is still pending. (The well-formedness hypothesis —
authenticated records carry `authenticatedAt` — holds of every record the
code can produce, since `completeAuthentication` sets both fields
together.) -/
theorem isAuthenticated_spec (s : Store) (now : Nat) (u : String)
    (hwf : ∀ sd, mapGet s u = some sd → sd.status = SessionStatus.authenticated →
      sd.authenticatedAt.isSome = true) :
    ((isAuthenticated s now u).1 = true ↔
      ∃ sd a, mapGet s u = some sd ∧ sd.status = SessionStatus.authenticated ∧
        sd.authenticatedAt = some a ∧ now ≤ a + sessionExpiry) ∧
    (∀ sd a, mapGet s u = some sd → sd.status = SessionStatus.authenticated →
      sd.authenticatedAt = some a → a + sessionExpiry < now →
      isAuthenticated s now u = (false, mapDelete s u)) ∧
    (mapGet s u = none → isAuthenticated s now u = (false, s)) ∧
    (∀ sd, mapGet s u = some sd → sd.status = SessionStatus.pending →
      isAuthenticated s now u = (false, s)) := by
  refine ⟨⟨?_, ?_⟩, ?_, ?_, ?_⟩
  · intro h
    cases hg : mapGet s u with
    | none => simp [isAuthenticated, hg] at h
    | some sd =>
      by_cases hst : sd.status = SessionStatus.authenticated
      · cases ha : sd.authenticatedAt with
        | none => exact absurd (hwf sd hg hst) (by simp [ha])
        | some a =>
          by_cases hexp : now - a > sessionExpiry
          · simp [isAuthenticated, hg, hst, ha, hexp] at h
          · exact ⟨sd, a, rfl, hst, ha, by omega⟩
      · simp [isAuthenticated, hg, hst] at h
  · rintro ⟨sd, a, hg, hst, ha, hle⟩
    have hexp : ¬ (now - a > sessionExpiry) := by omega
    simp [isAuthenticated, hg, hst, ha, hexp]
  · intro sd a hg hst ha hlt
    have hexp : now - a > sessionExpiry := by omega
    simp [isAuthenticated, hg, hst, ha, hexp]
  · intro hg
    simp [isAuthenticated, hg]
  · intro sd hg hst
    simp [isAuthenticated, hg, hst]

/-- C4 witness: an authenticated record whose window has passed is
deleted as a side effect and reported unauthenticated. -/
theorem isAuthenticated_spec_w :
    isAuthenticated
        [("u1", ⟨"s1", "14155550100", 0, SessionStatus.authenticated, some 0⟩)]
        (sessionExpiry + 1) "u1"
      = (false,
         mapDelete [("u1", ⟨"s1", "14155550100", 0, SessionStatus.authenticated, some 0⟩)]
           "u1") := by
  exact (isAuthenticated_spec _ _ _
      (by intro sd hg _; simp [mapGet] at hg; subst hg; rfl)).2.1
    _ 0 rfl rfl rfl (by omega)

/-- C9: `completeAuthentication` never inspects, validates or transmits
its `passcode` argument: for every store state, time, user and transport
outcome, any two passcode values produce identical results and identical
post-states. -/
theorem completeAuthentication_passcode_irrelevant (s : Store) (now : Nat)
    (u p1 p2 : String) (t : McpOutcome) :
    completeAuthentication s now u p1 t = completeAuthentication s now u p2 t := rfl

/-- C10: `getStocks` and `getLoansAndCreditCards` are advertised to the
model in the function-declaration schema, yet dispatching either through
`executeFunctionCall` always fails with a method-missing TypeError — for
every store (hence before any authentication check, whose lazy eviction
would alter the store), every user and arguments — and issues no
transport request. -/
theorem declared_tools_unimplemented (s : Store) (now : Nat)
    (args : FunctionArgs) (u sid : String) (t : Nat → McpOutcome) :
    "getStocks" ∈ functionDeclarationNames ∧
    "getLoansAndCreditCards" ∈ functionDeclarationNames ∧
    executeFunctionCall s now "getStocks" args u t sid
      = (.error (.methodMissing "getStocks"), s, 0) ∧
    executeFunctionCall s now "getLoansAndCreditCards" args u t sid
      = (.error (.methodMissing "getLoansAndCreditCards"), s, 0) := by
  refine ⟨by decide, by decide, rfl, rfl⟩


theorem fetchViaMcp_unauth (tool : String) {s : Store} {now : Nat} {u : String}
    (t : McpOutcome) (h : (isAuthenticated s now u).1 = false) :
    fetchViaMcp tool s now u t
      = (.error .authRequired, (isAuthenticated s now u).2, 0) := by
  simp [fetchViaMcp, h]

theorem getPortfolioAnalysis_unauth {s : Store} {now : Nat} {u : String}
    (t : Nat → McpOutcome) (h : (isAuthenticated s now u).1 = false) :
    getPortfolioAnalysis s now u t
      = (.error .authRequired, (isAuthenticated s now u).2, 0) := by
  simp [getPortfolioAnalysis, h]

/-- C1 (amended): when `isAuthenticated(u)` is false at the moment of the
call, each of the six operations the service defines (`getNetWorth`,
`getMutualFunds`, `getBankTransactions`, `getEpfDetails`,
`getCreditReport`, `getPortfolioAnalysis`) fails with the
AuthenticationRequired error and issues no transport request; the two
remaining advertised data tools, `getStocks` and `getLoansAndCreditCards`,
are not service methods — dispatching them fails with a method-missing
TypeError instead of AuthenticationRequired, still without any transport
request. -/
theorem unauthenticated_data_fetch_gated (s : Store) (now : Nat) (u : String)
    (t : McpOutcome) (tf : Nat → McpOutcome) (args : FunctionArgs) (sid : String)
    (hno : (isAuthenticated s now u).1 = false) :
    ((getNetWorth s now u t).1 = .error .authRequired ∧
      (getNetWorth s now u t).2.2 = 0) ∧
    ((getMutualFunds s now u t).1 = .error .authRequired ∧
      (getMutualFunds s now u t).2.2 = 0) ∧
    ((getBankTransactions s now u t).1 = .error .authRequired ∧
      (getBankTransactions s now u t).2.2 = 0) ∧
    ((getEpfDetails s now u t).1 = .error .authRequired ∧
      (getEpfDetails s now u t).2.2 = 0) ∧
    ((getCreditReport s now u t).1 = .error .authRequired ∧
      (getCreditReport s now u t).2.2 = 0) ∧
    ((getPortfolioAnalysis s now u tf).1 = .error .authRequired ∧
      (getPortfolioAnalysis s now u tf).2.2 = 0) ∧
    executeFunctionCall s now "getStocks" args u tf sid
      = (.error (.methodMissing "getStocks"), s, 0) ∧
    executeFunctionCall s now "getLoansAndCreditCards" args u tf sid
      = (.error (.methodMissing "getLoansAndCreditCards"), s, 0) := by
  have hf : ∀ tool, fetchViaMcp tool s now u t
      = (.error .authRequired, (isAuthenticated s now u).2, 0) :=
    fun tool => fetchViaMcp_unauth tool t hno
  have hp := getPortfolioAnalysis_unauth tf hno
  refine ⟨?_, ?_, ?_, ?_, ?_, ?_, rfl, rfl⟩ <;>
    simp [getNetWorth, getMutualFunds, getBankTransactions, getEpfDetails,
      getCreditReport, hf, hp]

/-- C1 witness: with the empty store (user never authenticated),
`getNetWorth` fails with the AuthenticationRequired error and no
transport request is issued. -/
theorem unauthenticated_data_fetch_gated_w :
    (isAuthenticated [] 0 "u9").1 = false ∧
    (getNetWorth [] 0 "u9" (.response ⟨none, "x"⟩)).1 = .error .authRequired ∧
    (getNetWorth [] 0 "u9" (.response ⟨none, "x"⟩)).2.2 = 0 :=
  ⟨rfl,
   (unauthenticated_data_fetch_gated [] 0 "u9" (.response ⟨none, "x"⟩)
     (fun _ => .response ⟨none, "x"⟩) ⟨none, none⟩ "sid" rfl).1.1,
   (unauthenticated_data_fetch_gated [] 0 "u9" (.response ⟨none, "x"⟩)
     (fun _ => .response ⟨none, "x"⟩) ⟨none, none⟩ "sid" rfl).1.2⟩

/-- C1 counterexample: the claim covers `getStocks`, but dispatching
`getStocks` for an unauthenticated user does not fail with the
AuthenticationRequired error: the exported service object has no such
method, so the dispatcher fails with a method-missing TypeError (the
transport is still never invoked, and the store is untouched). -/
theorem unauthenticated_getStocks_not_auth_error :
    (isAuthenticated [] 0 "u9").1 = false ∧
    executeFunctionCall [] 0 "getStocks" ⟨none, none⟩ "u9"
        (fun _ => .response ⟨none, "x"⟩) "sid"
      = (.error (.methodMissing "getStocks"), [], 0) ∧
    FiError.methodMissing "getStocks" ≠ FiError.authRequired :=
  ⟨rfl, rfl, by decide⟩

/-- A store holding one authenticated, unexpired session for `u1`
(authenticated at time 0). -/
def authStore : Store :=
  [("u1", ⟨"s1", "14155550100", 0, SessionStatus.authenticated, some 0⟩)]

/-- C3 (amended): the current service performs no 401/403 demotion.
`makeMcpCall` never inspects the HTTP status of a failed request, so a
transport failure with any status — 401 and 403 included — during an
authenticated `getNetWorth` call surfaces as a generic MCP-call error,
the session record is left untouched, and a subsequent
`isAuthenticated(u)` still returns true. -/
theorem http_unauthorized_no_demotion (s : Store) (now : Nat) (u : String)
    (status : Option Nat) (msg : String)
    (hauth : (isAuthenticated s now u).1 = true) :
    (getNetWorth s now u (.httpFailure status msg)).1
      = .error (.mcpCallFailed ("MCP call failed: " ++ msg)) ∧
    (getNetWorth s now u (.httpFailure status msg)).2.1 = s ∧
    (isAuthenticated (getNetWorth s now u (.httpFailure status msg)).2.1 now u).1
      = true := by
  have hsnd : (getNetWorth s now u (.httpFailure status msg)).2.1 = s := by
    rw [getNetWorth, fetchViaMcp_snd]
    exact isAuthenticated_snd_of_true hauth
  refine ⟨?_, hsnd, by rw [hsnd]; exact hauth⟩
  simp [getNetWorth, fetchViaMcp, makeMcpCall, hauth]

/-- C3 witness: concrete authenticated store, transport rejects with
HTTP 403; the session survives and the user stays authenticated. -/
theorem http_unauthorized_no_demotion_w :
    (getNetWorth authStore 1000 "u1"
        (.httpFailure (some 403) "Request failed with status code 403")).2.1
      = authStore ∧
    (isAuthenticated (getNetWorth authStore 1000 "u1"
        (.httpFailure (some 403) "Request failed with status code 403")).2.1
        1000 "u1").1 = true :=
  ⟨(http_unauthorized_no_demotion authStore 1000 "u1" (some 403)
      "Request failed with status code 403" rfl).2.1,
   (http_unauthorized_no_demotion authStore 1000 "u1" (some 403)
      "Request failed with status code 403" rfl).2.2⟩

/-- C3 counterexample: an authenticated data call whose transport request
fails with HTTP 401 does NOT delete the session record: afterwards
`isAuthenticated(u)` is still true, contradicting the claim that the
record is deleted before the error is returned. -/
theorem http401_session_survives :
    (isAuthenticated authStore 1000 "u1").1 = true ∧
    (getNetWorth authStore 1000 "u1"
        (.httpFailure (some 401) "Request failed with status code 401")).1
      = .error (.mcpCallFailed "MCP call failed: Request failed with status code 401") ∧
    (getNetWorth authStore 1000 "u1"
        (.httpFailure (some 401) "Request failed with status code 401")).2.1
      = authStore ∧
    (isAuthenticated (getNetWorth authStore 1000 "u1"
        (.httpFailure (some 401) "Request failed with status code 401")).2.1
        1000 "u1").1 = true :=
  ⟨rfl, rfl, rfl, rfl⟩

/-- C7: for an authenticated user, the portfolio-analysis composite
returns a result object for every combination of sub-call transport
outcomes — it never fails because a sub-call failed — and that object
reports, for each of the four sub-calls independently, whether it
succeeded (`availableData`) and its value when it did (`summary`). -/
theorem portfolio_analysis_tolerates_subcall_failures (s : Store) (now : Nat)
    (u : String) (t : Nat → McpOutcome)
    (hauth : (isAuthenticated s now u).1 = true) :
    ∃ a : PortfolioAnalysis,
      (getPortfolioAnalysis s now u t).1 = .ok a ∧
      a.availableData.netWorth = isFulfilled (getNetWorth s now u (t 0)).1 ∧
      a.summary.netWorth = fulfilledValue (getNetWorth s now u (t 0)).1 ∧
      a.availableData.mutualFunds = isFulfilled (getMutualFunds s now u (t 1)).1 ∧
      a.summary.mutualFunds = fulfilledValue (getMutualFunds s now u (t 1)).1 ∧
      a.availableData.bankTransactions
        = isFulfilled (getBankTransactions s now u (t 2)).1 ∧
      a.summary.bankTransactions
        = fulfilledValue (getBankTransactions s now u (t 2)).1 ∧
      a.availableData.epfDetails = isFulfilled (getEpfDetails s now u (t 3)).1 ∧
      a.summary.epfDetails = fulfilledValue (getEpfDetails s now u (t 3)).1 := by
  have hs1 : (isAuthenticated s now u).2 = s := isAuthenticated_snd_of_true hauth
  have hs2 : ∀ tool t1, (fetchViaMcp tool s now u t1).2.1 = s := by
    intro tool t1
    rw [fetchViaMcp_snd, hs1]
  simp only [getPortfolioAnalysis, getNetWorth, getMutualFunds,
    getBankTransactions, getEpfDetails, hauth, Bool.not_true, Bool.false_eq_true,
    if_false, hs1, hs2]
  exact ⟨_, rfl, rfl, rfl, rfl, rfl, rfl, rfl, rfl, rfl⟩

/-- Transport oracle for the C7 witness: the first two sub-calls fail at
the transport, the last two succeed. -/
def mixedTransport : Nat → McpOutcome :=
  fun i => if i < 2 then .httpFailure none "connect ECONNREFUSED" else .response ⟨none, "data"⟩

/-- C7 witness: authenticated user, two of four sub-calls failing; the
composite still returns a result object reporting all four outcomes. -/
theorem portfolio_analysis_tolerates_subcall_failures_w :
    (isAuthenticated authStore 1000 "u1").1 = true ∧
    isFulfilled (getNetWorth authStore 1000 "u1" (mixedTransport 0)).1 = false ∧
    isFulfilled (getMutualFunds authStore 1000 "u1" (mixedTransport 1)).1 = false ∧
    isFulfilled (getBankTransactions authStore 1000 "u1" (mixedTransport 2)).1 = true ∧
    isFulfilled (getEpfDetails authStore 1000 "u1" (mixedTransport 3)).1 = true ∧
    (∃ a : PortfolioAnalysis,
      (getPortfolioAnalysis authStore 1000 "u1" mixedTransport).1 = .ok a ∧
      a.availableData.netWorth
        = isFulfilled (getNetWorth authStore 1000 "u1" (mixedTransport 0)).1 ∧
      a.summary.netWorth
        = fulfilledValue (getNetWorth authStore 1000 "u1" (mixedTransport 0)).1 ∧
      a.availableData.mutualFunds
        = isFulfilled (getMutualFunds authStore 1000 "u1" (mixedTransport 1)).1 ∧
      a.summary.mutualFunds
        = fulfilledValue (getMutualFunds authStore 1000 "u1" (mixedTransport 1)).1 ∧
      a.availableData.bankTransactions
        = isFulfilled (getBankTransactions authStore 1000 "u1" (mixedTransport 2)).1 ∧
      a.summary.bankTransactions
        = fulfilledValue (getBankTransactions authStore 1000 "u1" (mixedTransport 2)).1 ∧
      a.availableData.epfDetails
        = isFulfilled (getEpfDetails authStore 1000 "u1" (mixedTransport 3)).1 ∧
      a.summary.epfDetails
        = fulfilledValue (getEpfDetails authStore 1000 "u1" (mixedTransport 3)).1) :=
  ⟨rfl, rfl, rfl, rfl, rfl,
   portfolio_analysis_tolerates_subcall_failures authStore 1000 "u1" mixedTransport rfl⟩


/-- C5 (amended): `completeAuthentication` performs no passcode-format
validation and has no InvalidPasscode failure: with a pending,
non-expired session, any passcode string whatsoever (malformed included)
proceeds to the provider test call, and when that call succeeds with no
error field the session is promoted to `authenticated`. -/
theorem completeAuthentication_no_passcode_validation (s : Store) (now : Nat)
    (u pc : String) (reply : McpReply) (sd : SessionData)
    (hget : mapGet s u = some sd) (hp : sd.status = SessionStatus.pending)
    (hfresh : now - sd.timestamp ≤ sessionExpiry) (hr : reply.error = none) :
    (completeAuthentication s now u pc (.response reply)).1
      = .ok ⟨sd.sessionId, sd.phoneNumber⟩ ∧
    mapGet (completeAuthentication s now u pc (.response reply)).2.1 u
      = some { sd with status := SessionStatus.authenticated,
                       authenticatedAt := some now } := by
  have hexp : ¬ (now - sd.timestamp > sessionExpiry) := by omega
  constructor
  · simp [completeAuthentication, hget, hp, hexp, makeMcpCall, hr]
  · simp [completeAuthentication, hget, hp, hexp, makeMcpCall, hr,
      mapGet_mapSet_self]

/-- C5 witness: a pending, fresh session and a clean provider reply; the
obviously malformed passcode string is accepted and the session is
promoted. -/
theorem completeAuthentication_no_passcode_validation_w :
    (completeAuthentication
        [("u2", ⟨"s2", "919876543210", 0, SessionStatus.pending, none⟩)]
        1000 "u2" "not-a-passcode" (.response ⟨none, "tools"⟩)).1
      = .ok ⟨"s2", "919876543210"⟩ ∧
    mapGet (completeAuthentication
        [("u2", ⟨"s2", "919876543210", 0, SessionStatus.pending, none⟩)]
        1000 "u2" "not-a-passcode" (.response ⟨none, "tools"⟩)).2.1 "u2"
      = some ⟨"s2", "919876543210", 0, SessionStatus.authenticated, some 1000⟩ :=
  completeAuthentication_no_passcode_validation _ 1000 "u2" "not-a-passcode"
    ⟨none, "tools"⟩ ⟨"s2", "919876543210", 0, SessionStatus.pending, none⟩
    rfl rfl (by decide) rfl

/-- C5 counterexample: the passcode "abc" is not 6 numeric digits, yet
with a pending, non-expired session and a provider whose test call
succeeds, `completeAuthentication` does not fail with an InvalidPasscode
error and does change state: it succeeds and promotes the record to
`authenticated`. -/
theorem malformed_passcode_not_rejected :
    "abc".data.all Char.isDigit = false ∧
    "abc".length ≠ 6 ∧
    (completeAuthentication
        [("u2", ⟨"s2", "919876543210", 0, SessionStatus.pending, none⟩)]
        1000 "u2" "abc" (.response ⟨none, "tools"⟩)).1
      = .ok ⟨"s2", "919876543210"⟩ ∧
    mapGet (completeAuthentication
        [("u2", ⟨"s2", "919876543210", 0, SessionStatus.pending, none⟩)]
        1000 "u2" "abc" (.response ⟨none, "tools"⟩)).2.1 "u2"
      = some ⟨"s2", "919876543210", 0, SessionStatus.authenticated, some 1000⟩ :=
  ⟨rfl, by decide, rfl, rfl⟩

/-- C6 (amended): the sweep iterates all records and deletes exactly
those with `now - timestamp > sessionExpiry` — a single 30-minute window
measured from the creation timestamp, for pending and authenticated
records alike. There is no 5-minute pending window, and an authenticated
record is measured from creation, not from authentication; in particular
a pending record created 6 minutes ago is NOT deleted. -/
theorem sweep_single_thirty_minute_window (s : Store) (now : Nat) (u : String)
    (hnd : KeysNodup s) :
    mapGet (cleanupExpiredSessions s now) u =
      match mapGet s u with
      | some sd => if now - sd.timestamp > sessionExpiry then none else some sd
      | none => none := by
  induction s with
  | nil => rfl
  | cons hd tl ih =>
    have hcons := List.nodup_cons.mp (show (hd.1 :: storeKeys tl).Nodup from hnd)
    have ihtl := ih hcons.2
    simp only [cleanupExpiredSessions] at ihtl
    by_cases hh : hd.1 = u
    · by_cases hc : now - hd.2.timestamp > sessionExpiry
      · have htl : mapGet tl u = none := mapGet_eq_none_of_not_mem (hh ▸ hcons.1)
        simp [cleanupExpiredSessions, List.filter_cons, mapGet, hh, hc, ihtl, htl]
      · simp [cleanupExpiredSessions, List.filter_cons, mapGet, hh, hc]
    · by_cases hc : now - hd.2.timestamp > sessionExpiry
      · simp [cleanupExpiredSessions, List.filter_cons, mapGet, hh, hc, ihtl]
      · simp [cleanupExpiredSessions, List.filter_cons, mapGet, hh, hc, ihtl]

/-- C6 witness: a pending record created 6 minutes before the sweep (at
`now = 360000` ms) is kept, because 6 minutes is within the single
30-minute window. -/
theorem sweep_single_thirty_minute_window_w :
    mapGet (cleanupExpiredSessions
        [("u1", ⟨"s1", "14155550100", 0, SessionStatus.pending, none⟩)]
        (6 * 60 * 1000)) "u1"
      = some ⟨"s1", "14155550100", 0, SessionStatus.pending, none⟩ :=
  sweep_single_thirty_minute_window
    [("u1", ⟨"s1", "14155550100", 0, SessionStatus.pending, none⟩)]
    (6 * 60 * 1000) "u1" (by simp [KeysNodup, storeKeys])

/-- C6 counterexample: a pending record created 6 minutes before the
sweep — which the claim says is deleted under an (approximately)
5-minute pending window — survives the sweep unchanged. -/
theorem six_minute_pending_record_survives_sweep :
    cleanupExpiredSessions
        [("u1", ⟨"s1", "14155550100", 0, SessionStatus.pending, none⟩)]
        (6 * 60 * 1000)
      = [("u1", ⟨"s1", "14155550100", 0, SessionStatus.pending, none⟩)] :=
  rfl

/-- The phone pattern in the words of the amended claim C8: after
whitespace stripping, an optional leading `+` followed by 2 to 15
digits, the first of which must be nonzero (`1`–`9`). -/
def amendedPhonePattern (p : String) : Bool :=
  let core := match p.data with
    | '+' :: cs => cs
    | l => l
  decide (2 ≤ core.length) && decide (core.length ≤ 15)
    && core.all (fun d => d.isDigit)
    && (match core.head? with
        | some c => '1' ≤ c && c ≤ '9'
        | none => false)

/-- The phone pattern as worded in the original claim C8: after
whitespace stripping, an optional leading `+` followed by 2 to 15 digits
(any digits — no constraint on the first digit). -/
def claimPhonePattern (p : String) : Bool :=
  let core := match p.data with
    | '+' :: cs => cs
    | l => l
  decide (2 ≤ core.length) && decide (core.length ≤ 15)
    && core.all (fun d => d.isDigit)

theorem validPhone_eq_amendedPhonePattern (p : String) :
    validPhone p = amendedPhonePattern p := by
  simp only [validPhone, amendedPhonePattern]
  generalize (match p.data with
    | '+' :: cs => cs
    | l => l) = core
  cases core with
  | nil => rfl
  | cons c rest =>
    simp only [List.all_cons, List.length_cons, List.head?_cons]
    rw [Bool.eq_iff_iff]
    simp only [Bool.and_eq_true, decide_eq_true_eq, List.all_eq_true, and_assoc]
    constructor
    · rintro ⟨h1, h2, hall, hlen1, hlen2⟩
      have hd : c.isDigit = true := by
        have h0 : ('0' : Char) ≤ c := le_trans (by decide) h1
        simp [Char.isDigit]
        exact ⟨h0, h2⟩
      exact ⟨by omega, by omega, hd, hall, h1, h2⟩
    · rintro ⟨hl1, hl2, hd, hall, h1, h2⟩
      exact ⟨h1, h2, hall, by omega, by omega⟩

/-- C8 (amended): `initiateAuthentication(u, phoneNumber)` fails with the
InvalidInput error exactly when the whitespace-stripped phone number does
not match: optional leading `+` followed by 2–15 digits whose FIRST digit
is nonzero (the regex `[1-9]` of the code rejects a leading zero, which
the claim wording "2–15 digits" would accept); when it fails, no session
record is created or modified — the store is returned unchanged. -/
theorem initiate_invalid_phone_exact (s : Store) (now : Nat)
    (u phone sid : String) :
    ((initiateAuthentication s now u phone sid).1 = .error .invalidPhone
      ↔ amendedPhonePattern (stripWs phone) = false) ∧
    (amendedPhonePattern (stripWs phone) = false →
      (initiateAuthentication s now u phone sid).2 = s) := by
  have hv := validPhone_eq_amendedPhonePattern (stripWs phone)
  cases hb : (phone.isEmpty || !validPhone (stripWs phone)) with
  | true =>
    have herr : initiateAuthentication s now u phone sid
        = (.error .invalidPhone, s) := by
      simp [initiateAuthentication, hb]
    have hpat : amendedPhonePattern (stripWs phone) = false := by
      rcases (Bool.or_eq_true _ _) ▸ hb with he | hnv
      · have hp : phone = "" := (String.isEmpty_iff phone).mp he
        subst hp
        rfl
      · rw [← hv]
        exact (Bool.not_eq_true' _) ▸ hnv
    exact ⟨⟨fun _ => hpat, fun _ => by rw [herr]⟩, fun _ => by rw [herr]⟩
  | false =>
    have hpat : amendedPhonePattern (stripWs phone) = true := by
      rw [← hv]
      exact (Bool.not_eq_false' _) ▸ (Bool.or_eq_false_iff.mp hb).2
    have hok : initiateAuthentication s now u phone sid
        = (.ok ⟨sid, stripWs phone⟩,
           mapSet s u ⟨sid, stripWs phone, now, .pending, none⟩) := by
      simp [initiateAuthentication, hb]
    refine ⟨⟨fun h => ?_, fun h => ?_⟩, fun h => ?_⟩
    · rw [hok] at h
      exact absurd h (by simp)
    · rw [hpat] at h
      exact absurd h (by decide)
    · rw [hpat] at h
      exact absurd h (by decide)

/-- C8 counterexample: "0123" (after stripping, 4 digits with an optional
`+` absent) matches the pattern as worded in the claim, yet
`initiateAuthentication` rejects it with the InvalidInput error, because
the regex of the code requires a nonzero first digit. (No record is
created, as the claim also says.) -/
theorem leading_zero_phone_rejected :
    claimPhonePattern (stripWs "0123") = true ∧
    (initiateAuthentication [] 0 "u2" "0123" "sid").1 = .error .invalidPhone ∧
    (initiateAuthentication [] 0 "u2" "0123" "sid").2 = [] :=
  ⟨rfl, rfl, rfl⟩

end Finix
